import Mathlib

/-!
Shallow embedding of the Zerynth ADM device agent (`zadm.py`): the JSON
message model, the device FOTA state, the read-loop dispatch (`_readloop`),
the login envelope (`login`), worker spawning (`start`), the outbound queue,
and the raw socket writer (`_send` / `_writeloop` / `_writeloop_htbm`).
External collaborators (the `fota`, `vm`, `base64` modules and the socket)
are modelled as oracle parameters in an environment record; every call made
to them by the embedded code is recorded as an explicit effect.
-/

namespace Zadm

/-! ## JSON values

JSON values as produced by `json.loads` / consumed by `json.dumps`.
A mutual inductive is used so that decidable equality can be derived. -/

mutual
inductive Json where
  | null
  | bool (b : Bool)
  | num (n : Int)
  | str (s : String)
  | arr (xs : JsonArr)
  | obj (fields : JsonObj)
deriving DecidableEq, Repr
inductive JsonArr where
  | nil
  | cons (hd : Json) (tl : JsonArr)
deriving DecidableEq, Repr
inductive JsonObj where
  | nil
  | cons (k : String) (v : Json) (tl : JsonObj)
deriving DecidableEq, Repr
end

/-- Build a `JsonArr` from a Lean list. -/
def JsonArr.ofList : List Json → JsonArr
  | [] => .nil
  | x :: t => .cons x (ofList t)

/-- Convert a `JsonArr` back to a Lean list. -/
def JsonArr.toList : JsonArr → List Json
  | .nil => []
  | .cons x t => x :: toList t

/-- Build a `JsonObj` from a Lean association list (insertion order kept,
as in a Python dict literal). -/
def JsonObj.ofList : List (String × Json) → JsonObj
  | [] => .nil
  | (k, v) :: t => .cons k v (ofList t)

/-- First value bound to key `k`, as Python `d[k]` on a dict. -/
def JsonObj.find? : JsonObj → String → Option Json
  | .nil, _ => none
  | .cons k v t, key => if k == key then some v else t.find? key

/-- Object literal helper. -/
def jobj (l : List (String × Json)) : Json := .obj (JsonObj.ofList l)

/-- Array literal helper. -/
def jarr (l : List Json) : Json := .arr (JsonArr.ofList l)

/-- Python truthiness of a JSON value (`if x:`). -/
def Json.truthy : Json → Bool
  | .null => false
  | .bool b => b
  | .num n => n != 0
  | .str s => s != ""
  | .arr a => a != .nil
  | .obj o => o != .nil

/-- Read a JSON value as a Python `int`; Python `bool` is an `int` subclass.
Any other shape raises (`TypeError`) where the source does arithmetic. -/
def Json.asInt : Json → Except String Int
  | .num n => .ok n
  | .bool b => .ok (if b then 1 else 0)
  | _ => .error "TypeError"

/-! ## Inbound messages

An inbound frame is the parsed JSON object: an association list in key
order. `getField` is Python `msg[k]` (as an `Option`), `hasKey` is
`k in msg`. -/

abbrev Msg := List (String × Json)

/-- Python `msg[k]`, `none` when the key is absent (`KeyError`). -/
def getField (m : Msg) (k : String) : Option Json :=
  (List.find? (fun p => p.1 == k) m).map (fun p => p.2)

/-- Python `k in msg`. -/
def hasKey (m : Msg) (k : String) : Bool := (getField m k).isSome

/-- Python `msg[k]` in the exception monad: a missing key is a `KeyError`
that escapes to the read loop and triggers a reconnect. -/
def req (m : Msg) (k : String) : Except String Json :=
  match getField m k with
  | some v => .ok v
  | none => .error ("KeyError: " ++ k)

/-! ## FOTA record and environment

`fota.get_record()` returns a positional tuple; the agent reads indices
0 (valid runtime flag), 1 (current VM slot), 4 (current bytecode slot) and
8 (chunk size). -/

structure FotaRecord where
  r0 : Json
  r1 : Json
  r4 : Json
  r8 : Json
deriving Repr

/-- One RPC handler: a Python callable that either returns a JSON value or
raises (the `error` carries `str(e)`). -/
def Handler := List Json → Except String Json

/-! ## Base64 (`base64.standard_b64decode`)

Standard-alphabet base64 with `=` padding: the input is consumed in groups
of four characters, only the final group may be padded, and a malformed
input raises (`none`). Faithful to the library call on every well-formed
input. -/

/-- Value of one character of the standard base64 alphabet. -/
def b64val (c : Char) : Option Nat :=
  if 65 ≤ c.toNat && c.toNat ≤ 90 then some (c.toNat - 65)
  else if 97 ≤ c.toNat && c.toNat ≤ 122 then some (c.toNat - 71)
  else if 48 ≤ c.toNat && c.toNat ≤ 57 then some (c.toNat + 4)
  else if c = '+' then some 62
  else if c = '/' then some 63
  else none

/-- Decode base64 character groups of four into bytes. -/
def b64groups : List Char → Option (List Nat)
  | [] => some []
  | c1 :: c2 :: c3 :: c4 :: rest =>
    match b64val c1, b64val c2 with
    | some v1, some v2 =>
      if c3 = '=' ∧ c4 = '=' ∧ rest = [] then
        some [v1 * 4 + v2 / 16]
      else
        match b64val c3 with
        | some v3 =>
          if c4 = '=' ∧ rest = [] then
            some [v1 * 4 + v2 / 16, (v2 % 16) * 16 + v3 / 4]
          else
            match b64val c4 with
            | some v4 =>
              match b64groups rest with
              | some bs => some ((v1 * 4 + v2 / 16) :: ((v2 % 16) * 16 + v3 / 4)
                  :: ((v3 % 4) * 64 + v4) :: bs)
              | none => none
            | none => none
        | none => none
    | _, _ => none
  | _ => none

/-- `base64.standard_b64decode(x)`: decodes a string, raises on any other
JSON shape (`TypeError`) and on malformed base64 (`binascii.Error`). -/
def standard_b64decode (j : Json) : Option (List Nat) :=
  match j with
  | .str s => b64groups s.toList
  | _ => none

/-- Oracle environment for one read-loop step: the results the external
collaborators (`fota`, the registered RPC dict, the user FOTA callback)
would return during this step. -/
structure Env where
  record : Option FotaRecord
  find_bytecode_slot : Int
  find_vm_slot : Int
  checksum_slot : Int → Int → List Nat
  fota_callback : Option (Nat → Bool)
  rpc : List (String × Handler)

/-- Look up a registered RPC handler by method name. -/
def rpcLookup (env : Env) (name : String) : Option Handler :=
  (List.find? (fun p => p.1 == name) env.rpc).map (fun p => p.2)

/-! ## Device FOTA state

Mirrors the attributes of `Device` read or written by `_readloop`.
The phase and type constants mirror the `__define` lines of the source. -/

def OTA_ONLY_BC : Nat := 0
def OTA_BC_AND_VM : Nat := 1

def OTA_IDLE : Nat := 0
def OTA_STARTED : Nat := 1
def OTA_RECEIVING_BC : Nat := 2
def OTA_RECEIVING_VM : Nat := 3
def OTA_RECEIVING_BC_CRC : Nat := 4
def OTA_RECEIVING_VM_CRC : Nat := 5

structure DevState where
  ota : Nat
  ota_type : Nat
  chunk : Int
  vmsize : Int
  bcsize : Int
  bcslot : Json
  vmslot : Json
  next_bcaddr : Int
  next_vmaddr : Int
  cblock : Int
  csize : Int
deriving DecidableEq, Repr

/-! ## Effects

Every externally visible action of a read-loop step, in execution order:
messages handed to `self.send`, flash operations, callback invocations,
the bootloader `attempt`, closing the socket and the MCU reset. -/

inductive Eff where
  | sendMsg (m : Json)
  | eraseSlot (addr size : Int)
  | writeSlot (addr : Int) (data : List Nat)
  | checksumSlot (addr size : Int)
  | closeSlot (addr : Int)
  | callbackCall (ev : Nat) (res : Bool)
  | attemptCall (bc vm : Json)
  | closeall
  | mcuReset
deriving DecidableEq, Repr

/-! ## Outbound message shapes (dict literals of the source, key order kept) -/

/-- The abort frame sent by `_ota_fail(reason)`. -/
def koMsg (reason : String) : Json :=
  jobj [("cmd", .str "OTA"),
        ("payload", jobj [("ko", .num 1), ("reason", .str reason)])]

/-- Block request `{"cmd":"OTA","payload":{"b":b,"t":t}}`. -/
def otaBMsg (b : Int) (t : Json) : Json :=
  jobj [("cmd", .str "OTA"), ("payload", jobj [("b", .num b), ("t", t)])]

/-- CRC request `{"cmd":"OTA","payload":{"c":0,"t":t}}`. -/
def otaCMsg (t : Json) : Json :=
  jobj [("cmd", .str "OTA"), ("payload", jobj [("c", .num 0), ("t", t)])]

/-- Readiness acknowledgement `{"cmd":"OTA","payload":{"ok":1}}`. -/
def otaOkMsg : Json :=
  jobj [("cmd", .str "OTA"), ("payload", jobj [("ok", .num 1)])]

/-- RPC success reply `{"cmd":"RETN","id":id,"res":res}`. -/
def retnRes (idv res : Json) : Json :=
  jobj [("cmd", .str "RETN"), ("id", idv), ("res", res)]

/-- RPC error reply `{"cmd":"RETN","id":id,"error":str(e)}`. -/
def retnErr (idv : Json) (e : String) : Json :=
  jobj [("cmd", .str "RETN"), ("id", idv), ("error", .str e)]

/-- Heartbeat frame. -/
def htbmMsg : Json := jobj [("cmd", .str "HTBM")]

/-! ## The read-loop step

`readStep env st msg` is one iteration of the `while True` body of
`Device._readloop` after `_getmsg` has produced the parsed object `msg`.
`Except.error` models a Python exception escaping the body, which the
enclosing `try` turns into `self._reconnect()`; `Except.ok (st2, effs)`
is normal completion with the new state and the effects performed. -/

/-- The dispatch guard for an RPC frame, literally
`"cmd" in msg and msg["cmd"]=="CALL" and "method" in msg and
msg["method"] in self.rpc and "id" in msg`; dict membership for a
non-string method is simply false. -/
def callGuard (env : Env) (msg : Msg) : Bool :=
  hasKey msg "cmd" && (getField msg "cmd" == some (Json.str "CALL")) &&
  (match getField msg "method" with
   | some (Json.str m) => (rpcLookup env m).isSome
   | _ => false) &&
  hasKey msg "id"

/-- Python argument unpacking `f(*args)`: a list yields its elements, a
string its characters, a dict its keys; a non-iterable raises `TypeError`
inside the protected call, so it surfaces as a handler exception. -/
def unpackArgs : Json → Except String (List Json)
  | .arr xs => .ok xs.toList
  | .str s => .ok (s.toList.map (fun c => Json.str (String.mk [c])))
  | .obj fs => .ok (objKeys fs)
  | _ => .error "TypeError"
where
  objKeys : JsonObj → List Json
    | .nil => []
    | .cons k _ t => Json.str k :: objKeys t

/-- The `CALL` branch of `_readloop` (lines 289-309 of the source):
collect `args` (default `[]`) and `ret` (default false, truthiness of
`msg["ret"]`), invoke the handler inside `try`, and send a `RETN` reply
only when `ret` is truthy. -/
def handleCall (env : Env) (st : DevState) (msg : Msg) :
    Except String (DevState × List Eff) :=
  match getField msg "method" with
  | some (Json.str mname) =>
    match rpcLookup env mname with
    | some h =>
      match req msg "id" with
      | .error e => .error e
      | .ok idv =>
        let argsJ := match getField msg "args" with
          | some a => a
          | none => jarr []
        let ret := match getField msg "ret" with
          | some r => r.truthy
          | none => false
        match (match unpackArgs argsJ with
               | .ok xs => h xs
               | .error e => .error e : Except String Json) with
        | .error e => .ok (st, if ret then [Eff.sendMsg (retnErr idv e)] else [])
        | .ok res => .ok (st, if ret then [Eff.sendMsg (retnRes idv res)] else [])
    | none => .error "guard violated"
  | _ => .error "guard violated"

/-- Result of the user FOTA callback gate
`if self.fota_callback and not self.fota_callback(ev)`: whether the process
may continue, together with the invocation effect when a callback is set. -/
def cbGate (env : Env) (ev : Nat) : Bool × List Eff :=
  match env.fota_callback with
  | none => (true, [])
  | some cb => (cb ev, [Eff.callbackCall ev (cb ev)])

/-- The `"chunk"` (OTA start) branch, lines 322-360: store the declared
sizes and slots, refuse equal slots, classify the OTA type and reserve
slot addresses, run callback gate 0, erase positive slot addresses, and
enter the bytecode receiving phase requesting block 0. -/
def otaStart (env : Env) (rec : FotaRecord) (st : DevState) (msg : Msg) :
    Except String (DevState × List Eff) :=
  match req msg "chunk" with
  | .error e => .error e
  | .ok chunkJ =>
  match chunkJ.asInt with
  | .error e => .error e
  | .ok chunk =>
  match req msg "vmsize" with
  | .error e => .error e
  | .ok vmsizeJ =>
  match vmsizeJ.asInt with
  | .error e => .error e
  | .ok vmsize =>
  match req msg "bcsize" with
  | .error e => .error e
  | .ok bcsizeJ =>
  match bcsizeJ.asInt with
  | .error e => .error e
  | .ok bcsize =>
  match req msg "bc" with
  | .error e => .error e
  | .ok bcslot =>
  match req msg "vm" with
  | .error e => .error e
  | .ok vmslot =>
  let st1 := { st with chunk := chunk, vmsize := vmsize, bcsize := bcsize,
                       bcslot := bcslot, vmslot := vmslot }
  if bcslot == rec.r4 || (vmsize != 0 && vmslot == rec.r1) then
    .ok (st1, [Eff.sendMsg (koMsg "Bad slots")])
  else
    let st2 :=
      if vmsize ≤ 0 then
        { st1 with ota_type := OTA_ONLY_BC,
                   next_bcaddr := env.find_bytecode_slot, next_vmaddr := -1 }
      else
        { st1 with ota_type := OTA_BC_AND_VM,
                   next_vmaddr := env.find_vm_slot,
                   next_bcaddr := env.find_bytecode_slot }
    let cb0 := cbGate env 0
    if cb0.1 = false then
      .ok (st2, cb0.2 ++ [Eff.sendMsg (koMsg "stopped by callback")])
    else
      let e1 := if st2.next_bcaddr > 0 then [Eff.eraseSlot st2.next_bcaddr st2.bcsize] else []
      let e2 := if st2.next_vmaddr > 0 then [Eff.eraseSlot st2.next_vmaddr st2.vmsize] else []
      .ok ({ st2 with ota := OTA_RECEIVING_BC, cblock := 0, csize := 0 },
           cb0.2 ++ e1 ++ e2 ++ [Eff.sendMsg (otaBMsg 0 (Json.str "b"))])

/-- Shared tail of the `"bin"` branch, lines 375-385: write the decoded
block at `addr + chunk * cblock`, advance the counters, and either request
the next block or switch to the matching CRC phase. -/
def otaWrite (st : DevState) (t : Json) (addr tsize : Int) (thebin : List Nat) :
    Except String (DevState × List Eff) :=
  let waddr := addr + st.chunk * st.cblock
  let st1 := { st with cblock := st.cblock + 1,
                       csize := st.csize + (thebin.length : Int) }
  if st1.csize < tsize then
    .ok (st1, [Eff.writeSlot waddr thebin, Eff.sendMsg (otaBMsg st1.cblock t)])
  else
    .ok ({ st1 with ota := if t == Json.str "b" then OTA_RECEIVING_BC_CRC
                           else OTA_RECEIVING_VM_CRC },
         [Eff.writeSlot waddr thebin, Eff.sendMsg (otaCMsg t)])

/-- The `"bin"` branch, lines 362-385 (entered only in a receiving phase):
base64-decode the block; in the bytecode phase refuse `t != "b"`, in the
VM phase (only reachable with `ota_type == BC_AND_VM`) pick the slot
address and declared size by `t` without any phase check. The fall-through
case, a VM phase with a bytecode-only type, leaves the local `addr`
unbound in the source and is modelled as an exception. -/
def otaBin (env : Env) (st : DevState) (msg : Msg) :
    Except String (DevState × List Eff) :=
  match req msg "bin" with
  | .error e => .error e
  | .ok binJ =>
  match standard_b64decode binJ with
  | none => .error "binascii error"
  | some thebin =>
  if st.ota == OTA_RECEIVING_BC then
    match req msg "t" with
    | .error e => .error e
    | .ok t =>
      if t != Json.str "b" then
        .ok (st, [Eff.sendMsg (koMsg "BC only ota")])
      else
        otaWrite st t st.next_bcaddr st.bcsize thebin
  else if st.ota == OTA_RECEIVING_VM && st.ota_type == OTA_BC_AND_VM then
    match req msg "t" with
    | .error e => .error e
    | .ok t =>
      let addr := if t == Json.str "b" then st.next_bcaddr else st.next_vmaddr
      let tsize := if t == Json.str "b" then st.bcsize else st.vmsize
      otaWrite st t addr tsize thebin
  else
    .error "NameError: addr"

/-- One hexadecimal digit. -/
def hexDigit (c : Char) : Option Nat :=
  if c.isDigit then some (c.toNat - 48)
  else if 97 ≤ c.toNat && c.toNat ≤ 102 then some (c.toNat - 87)
  else if 65 ≤ c.toNat && c.toNat ≤ 70 then some (c.toNat - 55)
  else none

/-- Python `int(s[2*i:2*i+2], 16)`: the slice is clamped at the string
end; an empty slice or a non-hex character raises `ValueError`. -/
def parseHexAt (s : List Char) (i : Nat) : Except String Nat :=
  match (s.drop (2 * i)).take 2 with
  | [] => .error "ValueError"
  | [c] =>
    match hexDigit c with
    | some d => .ok d
    | none => .error "ValueError"
  | c1 :: c2 :: _ =>
    match hexDigit c1, hexDigit c2 with
    | some d1, some d2 => .ok (16 * d1 + d2)
    | _, _ => .error "ValueError"

/-- The `for i,b in enumerate(chk): … else: …` comparison loop:
`ok true` means the loop completed without `break` (the `else:` arm runs),
`ok false` means a byte mismatched (`break` after failing). -/
def crcLoop (s : List Char) (chk : List Nat) (i : Nat) : Except String Bool :=
  match chk with
  | [] => .ok true
  | b :: rest =>
    match parseHexAt s i with
    | .error e => .error e
    | .ok k =>
      if k != b then .ok false else crcLoop s rest (i + 1)

/-- The `"crc"` branch, lines 386-425: checksum and close the slot chosen
by `t`, compare the hex CRC byte-wise (an empty checksum skips the
comparison), and on success either start the VM phase or gate through
callbacks 1 and 2 around `fota.attempt` before closing the socket and
resetting the MCU. -/
def otaCrc (env : Env) (st : DevState) (msg : Msg) :
    Except String (DevState × List Eff) :=
  match req msg "t" with
  | .error e => .error e
  | .ok t =>
  let isB := t == Json.str "b"
  let chk := if isB then env.checksum_slot st.next_bcaddr st.bcsize
             else env.checksum_slot st.next_vmaddr st.vmsize
  let effs0 : List Eff :=
    if isB then [Eff.checksumSlot st.next_bcaddr st.bcsize, Eff.closeSlot st.next_bcaddr]
    else [Eff.checksumSlot st.next_vmaddr st.vmsize, Eff.closeSlot st.next_vmaddr]
  match (match chk with
         | [] => .ok true
         | _ :: _ =>
           match req msg "crc" with
           | .error e => .error e
           | .ok (Json.str s) => crcLoop s.toList chk 0
           | .ok _ => .error "TypeError" : Except String Bool) with
  | .error e => .error e
  | .ok false => .ok (st, effs0 ++ [Eff.sendMsg (koMsg "Bad CRC")])
  | .ok true =>
    if isB && st.ota_type == OTA_BC_AND_VM then
      .ok ({ st with ota := OTA_RECEIVING_VM, cblock := 0, csize := 0 },
           effs0 ++ [Eff.sendMsg (otaBMsg 0 (Json.str "v"))])
    else
      let cb1 := cbGate env 1
      if cb1.1 = false then
        .ok (st, effs0 ++ cb1.2 ++ [Eff.sendMsg (koMsg "stopped by callback")])
      else
        let cb2 := cbGate env 2
        if cb2.1 = false then
          .ok (st, effs0 ++ cb1.2 ++ [Eff.attemptCall st.bcslot st.vmslot] ++ cb2.2 ++
                   [Eff.sendMsg (koMsg "stopped by callback")])
        else
          .ok (st, effs0 ++ cb1.2 ++ [Eff.attemptCall st.bcslot st.vmslot] ++ cb2.2 ++
                   [Eff.closeall, Eff.mcuReset])

/-- The `"ok"` branch, lines 426-430; `and` short-circuits, so `msg["vm"]`
is only read when the bytecode slot matched. -/
def otaOkB (rec : FotaRecord) (st : DevState) (msg : Msg) :
    Except String (DevState × List Eff) :=
  match req msg "bc" with
  | .error e => .error e
  | .ok bc =>
    if bc == rec.r4 then
      match req msg "vm" with
      | .error e => .error e
      | .ok vm =>
        if vm == rec.r1 then .ok (st, [Eff.sendMsg otaOkMsg])
        else .ok (st, [Eff.sendMsg (koMsg "not ready")])
    else .ok (st, [Eff.sendMsg (koMsg "not ready")])

/-- One full `_readloop` iteration on a parsed message: the `CALL` guard,
the `terminate` branch, then the `OTA` dispatch on the payload
discriminator (`chunk` / `bin` in a receiving phase / `crc` / `ok`);
anything else is silently ignored. -/
def readStep (env : Env) (st : DevState) (msg : Msg) :
    Except String (DevState × List Eff) :=
  if callGuard env msg then handleCall env st msg
  else if hasKey msg "terminate" then .ok (st, [Eff.closeall])
  else if hasKey msg "cmd" && (getField msg "cmd" == some (Json.str "OTA")) then
    match env.record with
    | none => .ok (st, [Eff.sendMsg (koMsg "OTA unsupported")])
    | some rec =>
      if hasKey msg "chunk" then otaStart env rec st msg
      else if hasKey msg "bin" &&
              (st.ota == OTA_RECEIVING_BC || st.ota == OTA_RECEIVING_VM) then
        otaBin env st msg
      else if hasKey msg "crc" then otaCrc env st msg
      else if hasKey msg "ok" then otaOkB rec st msg
      else .ok (st, [])
  else .ok (st, [])

/-! ## Login envelope (`Device.login`, lines 154-173)

The envelope dict is built in literal key order: `uid`, `token`,
`platform`, `vmuid`, `"hearbeat"` (source spelling), then `"ota"` from the
outcome of `fota.get_record()`, and, only when the record position 0 is
truthy, `"bc"` from position 4, `"vm"` from position 1 and `"chunk"` from
position 8. -/

structure VmInfo where
  vmuid : Json
  platform : Json

def loginData (uid token : Json) (vminfo : VmInfo) (heartbeat : Int)
    (record : Option FotaRecord) : Msg :=
  let data : Msg := [("uid", uid), ("token", token),
                     ("platform", vminfo.platform), ("vmuid", vminfo.vmuid),
                     ("hearbeat", Json.num heartbeat)]
  match record with
  | none => data ++ [("ota", Json.bool false)]
  | some rec =>
    let d := data ++ [("ota", Json.bool true)]
    if rec.r0.truthy then
      d ++ [("bc", rec.r4), ("vm", rec.r1), ("chunk", rec.r8)]
    else d

/-! ## Worker spawning (`Device.start`, lines 113-134)

The four thread-handle attributes: `_rth`, `_hth`, `_wth` are checked
against `None` before spawning; `_whth` (low-res combined
writer+heartbeat) is assigned a fresh thread unconditionally. -/

structure Workers where
  rth : Bool
  hth : Bool
  wth : Bool
  whth : Bool
deriving DecidableEq, Repr

inductive Role where
  | reader
  | heartbeatTask
  | writerTask
  | writerHtbm
deriving DecidableEq, Repr

/-- The spawning part of `start()`: returns the updated handles and the
roles spawned by this call, in source order. -/
def startWorkers (low_res : Bool) (w : Workers) : Workers × List Role :=
  let (w1, s1) : Workers × List Role :=
    if !w.rth then ({ w with rth := true }, [Role.reader]) else (w, [])
  if !low_res then
    let (w2, s2) : Workers × List Role :=
      if !w1.hth then ({ w1 with hth := true }, [Role.heartbeatTask]) else (w1, [])
    let (w3, s3) : Workers × List Role :=
      if !w2.wth then ({ w2 with wth := true }, [Role.writerTask]) else (w2, [])
    (w3, s1 ++ s2 ++ s3)
  else
    ({ w1 with whth := true }, s1 ++ [Role.writerHtbm])

/-- Handle state of a freshly constructed `Device` (all handles `None`). -/
def initWorkers : Workers := ⟨false, false, false, false⟩

/-! ## Outbound queue (`self.wq`)

Modelled from the spec: the `queue.Queue` class itself lives in the
Zerynth standard library, not in this repository; the spec describes it as
a bounded FIFO whose `put` waits up to the given deadline and, if the
queue is still full, drops the message and raises to the caller. The
capacity 2 (`queue.Queue(maxsize=2)`, line 88) and the 1000 ms deadline
passed by `send` (`self.wq.put(msg,False,1000)`, line 219) are taken from
the source. -/

structure WQueue where
  cap : Nat
  items : List Json
deriving DecidableEq, Repr

/-- The queue allocated by `Device.__init__`. -/
def initWQueue : WQueue := { cap := 2, items := [] }

/-- The deadline (milliseconds) `Device.send` passes to `wq.put`. -/
def SEND_TIMEOUT_MS : Nat := 1000

/-- Modelled from the spec: outcome of `wq.put(msg, False, deadline)` once
the deadline has elapsed or capacity was available: a non-full queue
appends the message at the tail; a queue that stayed full drops the
message and raises. -/
def wqPut (q : WQueue) (msg : Json) : Except String WQueue :=
  if q.items.length < q.cap then .ok { q with items := q.items ++ [msg] }
  else .error "QueueFull"

/-- `Device.send(msg)` is exactly `self.wq.put(msg, False, 1000)`. -/
def devSend (q : WQueue) (msg : Json) : Except String WQueue := wqPut q msg

/-! ## Raw socket write (`Device._send`, lines 203-210) and the writer
loops (lines 249-278)

`_send` serializes and writes inside `try: … except Exception as e:
self.log(...)`: any failure is logged and swallowed. The serializer and
the socket are oracles that may fail; `sendAttempt` is the protected body
(writes performed so far, plus the exception if one was raised) and
`sendRaw` is `_send` itself, which always returns normally. -/

def sendAttempt (serialize : Json → Except String String)
    (write : String → Except String Unit) (msg : Json) :
    List String × Option String :=
  match serialize msg with
  | .error e => ([], some e)
  | .ok bb =>
    match write bb with
    | .error e => ([], some e)
    | .ok _ =>
      match write "\n" with
      | .error e => ([bb], some e)
      | .ok _ => ([bb, "\n"], none)

def sendRaw (serialize : Json → Except String String)
    (write : String → Except String Unit) (msg : Json) : List String :=
  (sendAttempt serialize write msg).1

/-- One iteration of `_writeloop`: the only statement inside its `try`
that can raise is `self.wq.get()`; `_send` returns normally whatever the
socket does. The boolean is whether `self._reconnect()` was called. -/
def writeloopStep (serialize : Json → Except String String)
    (write : String → Except String Unit) (getres : Except String Json) :
    List String × Bool :=
  match getres with
  | .error _ => ([], true)
  | .ok msg => (sendRaw serialize write msg, false)

/-- Outcome of the bounded `wq.get(timeout = …)` in `_writeloop_htbm`:
a message, a `QueueEmpty` timeout (also raised directly when the
heartbeat deadline already passed), or another exception. -/
inductive GetRes where
  | gotMsg (m : Json)
  | timedOut
  | failed
deriving DecidableEq, Repr

/-- One iteration of `_writeloop_htbm`: `QueueEmpty` is caught by the
inner `except` and turned into a heartbeat frame; any other exception
from the queue wait reaches the outer `except` and reconnects; `_send`
never raises. -/
def writeloopHtbmStep (serialize : Json → Except String String)
    (write : String → Except String Unit) (g : GetRes) :
    List String × Bool :=
  match g with
  | .failed => ([], true)
  | .timedOut => (sendRaw serialize write htbmMsg, false)
  | .gotMsg m => (sendRaw serialize write m, false)

/-! ## Observations used in the statements -/

/-- Whether an effect is a message handed to `self.send`. -/
def isSend : Eff → Bool
  | .sendMsg _ => true
  | _ => false

/-- Whether a JSON frame is an abort frame, i.e. carries a `"ko"` key in
its `"payload"` object. -/
def isKoJson : Json → Bool
  | .obj fs =>
    match fs.find? "payload" with
    | some (.obj pf) => (pf.find? "ko").isSome
    | _ => false
  | _ => false

/-- Whether an effect sends an abort frame. -/
def isKo : Eff → Bool
  | .sendMsg m => isKoJson m
  | _ => false

/-- Number of messages sent during a step. -/
def sendCount (effs : List Eff) : Nat := (effs.filter isSend).length

/-- The reserved slot base address for the image kind tagged `t`. -/
def slotBase (st : DevState) (t : Json) : Int :=
  if t == Json.str "b" then st.next_bcaddr else st.next_vmaddr

/-- The declared image size for the image kind tagged `t`. -/
def declSize (st : DevState) (t : Json) : Int :=
  if t == Json.str "b" then st.bcsize else st.vmsize

/-! ## Concrete fixtures for witnesses and counterexamples -/

/-- A FOTA record: valid runtime, current VM slot 2, current bytecode
slot 3, chunk size 1024. -/
def recC : FotaRecord := ⟨Json.num 1, Json.num 2, Json.num 3, Json.num 1024⟩

/-- A concrete oracle environment: record `recC`, bytecode slot at 4096,
VM slot at 8192, two-byte checksum `ab cd`, no user callback, and an
`echo` and a failing `boom` RPC handler. -/
def envC : Env :=
  { record := some recC
    find_bytecode_slot := 4096
    find_vm_slot := 8192
    checksum_slot := fun _ _ => [171, 205]
    fota_callback := none
    rpc := [("echo", fun xs => .ok (xs.headD Json.null)),
            ("boom", fun _ => .error "boom")] }

/-- State of a freshly constructed device (phase Idle). -/
def stIdle0 : DevState :=
  ⟨OTA_IDLE, OTA_ONLY_BC, 0, 0, 0, Json.null, Json.null, 0, 0, 0, 0⟩

/-- Mid-transfer state: receiving bytecode, chunk 4, bcsize 6, block 0
pending at slot base 4096. -/
def stBcPhase : DevState :=
  ⟨OTA_RECEIVING_BC, OTA_ONLY_BC, 4, 0, 6, Json.num 7, Json.num 9, 4096, -1, 0, 0⟩

/-- Mid-transfer state: receiving bytecode, one 4-byte block already
written (`cblock = 1`, `csize = 4`) out of a declared 6. -/
def stOvershoot : DevState :=
  ⟨OTA_RECEIVING_BC, OTA_ONLY_BC, 4, 0, 6, Json.num 7, Json.num 9, 4096, -1, 1, 4⟩

/-- Mid-transfer state: receiving the VM image of a combined update,
one block already written. -/
def stVmPhase : DevState :=
  ⟨OTA_RECEIVING_VM, OTA_BC_AND_VM, 4, 8, 6, Json.num 7, Json.num 9, 4096, 8192, 1, 4⟩

/-- A binary block tagged `"v"` (wrong kind for the bytecode phase);
`"AQI="` decodes to the two bytes `[1, 2]`. -/
def msgWrongT : Msg :=
  [("cmd", Json.str "OTA"), ("bin", Json.str "AQI="), ("t", Json.str "v")]

/-- A 4-byte binary block tagged `"b"`; `"AQIDBA=="` decodes to
`[1, 2, 3, 4]`. -/
def msgBin4 : Msg :=
  [("cmd", Json.str "OTA"), ("bin", Json.str "AQIDBA=="), ("t", Json.str "b")]

/-- An OTA start request whose declared bytecode slot 3 equals the
current bytecode slot of `recC`. -/
def msgBadSlots : Msg :=
  [("cmd", Json.str "OTA"), ("chunk", Json.num 4), ("vmsize", Json.num 0),
   ("bcsize", Json.num 6), ("bc", Json.num 3), ("vm", Json.num 9)]

/-- An RPC call of `echo("hi")` with a reply requested. -/
def msgEcho : Msg :=
  [("cmd", Json.str "CALL"), ("method", Json.str "echo"), ("id", Json.str "7"),
   ("args", jarr [Json.str "hi"]), ("ret", Json.bool true)]

/-! ## Helper lemmas -/

theorem JsonArr.toList_ofList (l : List Json) : (JsonArr.ofList l).toList = l := by
  induction l with
  | nil => rfl
  | cons x t ih => simp [JsonArr.ofList, JsonArr.toList, ih]

@[simp] theorem isKo_koMsg (r : String) : isKo (Eff.sendMsg (koMsg r)) = true := rfl

@[simp] theorem isKo_otaBMsg (b : Int) (t : Json) : isKo (Eff.sendMsg (otaBMsg b t)) = false := rfl

@[simp] theorem isKo_otaCMsg (t : Json) : isKo (Eff.sendMsg (otaCMsg t)) = false := rfl

@[simp] theorem isKo_otaOkMsg : isKo (Eff.sendMsg otaOkMsg) = false := rfl

@[simp] theorem isKo_retnRes (idv res : Json) : isKo (Eff.sendMsg (retnRes idv res)) = false := rfl

@[simp] theorem isKo_retnErr (idv : Json) (e : String) : isKo (Eff.sendMsg (retnErr idv e)) = false := rfl

@[simp] theorem isKo_eraseSlot (a s : Int) : isKo (Eff.eraseSlot a s) = false := rfl

@[simp] theorem isKo_writeSlot (a : Int) (d : List Nat) : isKo (Eff.writeSlot a d) = false := rfl

@[simp] theorem isKo_checksumSlot (a s : Int) : isKo (Eff.checksumSlot a s) = false := rfl

@[simp] theorem isKo_closeSlot (a : Int) : isKo (Eff.closeSlot a) = false := rfl

@[simp] theorem isKo_callbackCall (ev : Nat) (r : Bool) : isKo (Eff.callbackCall ev r) = false := rfl

@[simp] theorem isKo_attemptCall (b v : Json) : isKo (Eff.attemptCall b v) = false := rfl

@[simp] theorem isKo_closeall : isKo Eff.closeall = false := rfl

@[simp] theorem isKo_mcuReset : isKo Eff.mcuReset = false := rfl

/-- The callback gate produces at most a single callback-invocation
effect: no sends, no socket close, no reset. -/
theorem cbGate_shape (env : Env) (ev : Nat) :
    (cbGate env ev).2 = [] ∨ ∃ r, (cbGate env ev).2 = [Eff.callbackCall ev r] := by
  unfold cbGate
  cases env.fota_callback with
  | none => exact Or.inl rfl
  | some cb => exact Or.inr ⟨cb ev, rfl⟩

theorem cbGate_filter_isSend (env : Env) (ev : Nat) :
    List.filter isSend (cbGate env ev).2 = [] := by
  rcases cbGate_shape env ev with h | ⟨r, h⟩ <;> simp [h, isSend]

theorem cbGate_not_mem (env : Env) (ev : Nat) (e : Eff)
    (he : ∀ r, e ≠ Eff.callbackCall ev r) : e ∉ (cbGate env ev).2 := by
  rcases cbGate_shape env ev with h | ⟨r, h⟩ <;> simp [h]
  exact he r

theorem cbGate_no_ko (env : Env) (ev : Nat) :
    List.any (cbGate env ev).2 isKo = false := by
  rcases cbGate_shape env ev with h | ⟨r, h⟩ <;> simp [h, isKo]

theorem cbGate_no_closeall (env : Env) (ev : Nat) :
    Eff.closeall ∉ (cbGate env ev).2 := by
  rcases cbGate_shape env ev with h | ⟨r, h⟩ <;> simp [h]

theorem cbGate_no_reset (env : Env) (ev : Nat) :
    Eff.mcuReset ∉ (cbGate env ev).2 := by
  rcases cbGate_shape env ev with h | ⟨r, h⟩ <;> simp [h]

/-- Shape of the shared write tail `otaWrite`: exactly one flash write, at
`addr + chunk * cblock`, followed by exactly one non-abort send; both
counters advance; the phase moves to a CRC phase exactly when the updated
byte counter reached the declared size, and is untouched otherwise. -/
theorem otaWrite_shape (st : DevState) (t : Json) (addr tsize : Int)
    (thebin : List Nat)
    (hst : st.ota = OTA_RECEIVING_BC ∨ st.ota = OTA_RECEIVING_VM) :
    ∃ st2 nxt,
      otaWrite st t addr tsize thebin =
        .ok (st2, [Eff.writeSlot (addr + st.chunk * st.cblock) thebin,
                   Eff.sendMsg nxt]) ∧
      isKo (Eff.sendMsg nxt) = false ∧
      st2.cblock = st.cblock + 1 ∧
      st2.csize = st.csize + thebin.length ∧
      ((st2.ota = OTA_RECEIVING_BC_CRC ∨ st2.ota = OTA_RECEIVING_VM_CRC) ↔
        tsize ≤ st2.csize) := by
  by_cases hlt : st.csize + (thebin.length : Int) < tsize
  · refine ⟨{ st with cblock := st.cblock + 1, csize := st.csize + (thebin.length : Int) }, otaBMsg (st.cblock + 1) t, by simp [otaWrite, hlt], isKo_otaBMsg _ _, rfl, rfl, ?_⟩
    constructor
    · intro hc
      exfalso
      rcases hst with h2 | h2 <;> rcases hc with hc | hc <;>
        simp only [h2, OTA_RECEIVING_BC, OTA_RECEIVING_VM, OTA_RECEIVING_BC_CRC,
          OTA_RECEIVING_VM_CRC] at hc <;> omega
    · intro hge
      exact absurd hlt (by simpa using not_lt.mpr hge)
  · refine ⟨{ st with cblock := st.cblock + 1, csize := st.csize + (thebin.length : Int), ota := if t == Json.str "b" then OTA_RECEIVING_BC_CRC else OTA_RECEIVING_VM_CRC }, otaCMsg t, by simp [otaWrite, hlt], isKo_otaCMsg _, rfl, rfl, ?_⟩
    constructor
    · intro _
      simpa using not_lt.mp hlt
    · intro _
      by_cases hb : (t == Json.str "b") = true <;> simp [hb]

/-- The RPC branch never sends an abort frame. -/
theorem handleCall_no_ko (env : Env) (st st2 : DevState) (msg : Msg)
    (effs : List Eff) (h : handleCall env st msg = .ok (st2, effs)) :
    effs.any isKo = false := by
  unfold handleCall at h
  repeat' split at h
  all_goals try exact Except.noConfusion h
  all_goals dsimp only [] at h
  all_goals repeat' split at h
  all_goals first
    | exact Except.noConfusion h
    | (injection h with h1; injection h1 with ha hb; subst hb;
       simp [isKo_retnErr, isKo_retnRes])

/-- The readiness branch: either a single `ok` acknowledgement or a single
`"not ready"` abort; the state is untouched. -/
theorem otaOkB_abort (rec : FotaRecord) (st st2 : DevState) (msg : Msg)
    (effs : List Eff) (h : otaOkB rec st msg = .ok (st2, effs))
    (hko : effs.any isKo = true) :
    sendCount effs = 1 ∧ st2.ota = st.ota ∧
    Eff.closeall ∉ effs ∧ Eff.mcuReset ∉ effs := by
  unfold otaOkB at h
  repeat' split at h
  all_goals first
    | exact Except.noConfusion h
    | (injection h with h1; injection h1 with ha hb; subst ha; subst hb;
       simp [sendCount, isSend])

/-- The OTA start branch: whenever it aborts (bad slots or a callback
veto) it sends exactly that one abort frame, leaves the phase untouched,
and neither closes the socket nor resets. -/
theorem otaStart_abort (env : Env) (rec : FotaRecord) (st st2 : DevState)
    (msg : Msg) (effs : List Eff)
    (h : otaStart env rec st msg = .ok (st2, effs))
    (hko : effs.any isKo = true) :
    sendCount effs = 1 ∧ st2.ota = st.ota ∧
    Eff.closeall ∉ effs ∧ Eff.mcuReset ∉ effs := by
  unfold otaStart at h
  repeat' split at h
  all_goals try exact Except.noConfusion h
  all_goals try (dsimp only [] at h)
  all_goals repeat' split at h
  all_goals try exact Except.noConfusion h
  all_goals (injection h with h1; injection h1 with ha hb; subst ha; subst hb)
  all_goals first
    | (exfalso; revert hko;
       simp [List.any_append, cbGate_no_ko]; done)
    | (refine ⟨?_, rfl, ?_, ?_⟩ <;>
       simp [sendCount, List.filter_append, cbGate_filter_isSend, isSend,
             List.mem_append, cbGate_no_closeall, cbGate_no_reset])

/-- The binary-block branch: its only abort (`"BC only ota"`) sends exactly
that one frame, leaves the phase untouched, and neither closes the socket
nor resets. -/
theorem otaBin_abort (env : Env) (st st2 : DevState) (msg : Msg)
    (effs : List Eff) (h : otaBin env st msg = .ok (st2, effs))
    (hko : effs.any isKo = true) :
    sendCount effs = 1 ∧ st2.ota = st.ota ∧
    Eff.closeall ∉ effs ∧ Eff.mcuReset ∉ effs := by
  unfold otaBin otaWrite at h
  repeat' split at h
  all_goals try exact Except.noConfusion h
  all_goals try (dsimp only [] at h)
  all_goals repeat' split at h
  all_goals try exact Except.noConfusion h
  all_goals (injection h with h1; injection h1 with ha hb; subst ha; subst hb)
  all_goals first
    | (exfalso; revert hko; simp [List.any_append]; done)
    | (refine ⟨?_, rfl, ?_, ?_⟩ <;> simp [sendCount, isSend])

/-- The CRC branch: every abort (bad CRC or a callback veto) sends exactly
that one abort frame, leaves the phase untouched, and neither closes the
socket nor resets. -/
theorem otaCrc_abort (env : Env) (st st2 : DevState) (msg : Msg)
    (effs : List Eff) (h : otaCrc env st msg = .ok (st2, effs))
    (hko : effs.any isKo = true) :
    sendCount effs = 1 ∧ st2.ota = st.ota ∧
    Eff.closeall ∉ effs ∧ Eff.mcuReset ∉ effs := by
  unfold otaCrc at h
  repeat' split at h
  all_goals try exact Except.noConfusion h
  all_goals try (dsimp only [] at h)
  all_goals repeat' split at h
  all_goals try exact Except.noConfusion h
  all_goals (injection h with h1; injection h1 with ha hb; subst ha; subst hb)
  all_goals first
    | (exfalso; revert hko; simp [List.any_append, cbGate_no_ko]; done)
    | (refine ⟨?_, rfl, ?_, ?_⟩ <;>
       simp [sendCount, List.filter_append, cbGate_filter_isSend, isSend,
             List.mem_append, cbGate_no_closeall, cbGate_no_reset])

/-- Under the OTA dispatch guards — an `"OTA"` command that is not an RPC
frame, no `terminate` key, a readable FOTA record, no `"chunk"` key, a
`"bin"` key and a receiving phase — the read-loop step is exactly the
binary-block branch. -/
theorem readStep_otaBin (env : Env) (st : DevState) (msg : Msg)
    (rec : FotaRecord)
    (hterm : getField msg "terminate" = none)
    (hcmd : getField msg "cmd" = some (Json.str "OTA"))
    (hrec : env.record = some rec)
    (hnochunk : getField msg "chunk" = none)
    (hbin : (getField msg "bin").isSome = true)
    (hph : st.ota = OTA_RECEIVING_BC ∨ st.ota = OTA_RECEIVING_VM) :
    readStep env st msg = otaBin env st msg := by
  have hnc : callGuard env msg = false := by simp [callGuard, hcmd]
  unfold readStep
  rcases hph with h2 | h2 <;>
    simp [hnc, hterm, hasKey, hcmd, hrec, hnochunk, hbin, h2,
          OTA_RECEIVING_BC, OTA_RECEIVING_VM]

/-- An accepted binary block — tagged `"b"` in the bytecode phase, or any
tag in the VM phase of a combined update — is written at exactly
`slotBase(t) + chunk * cblock`; the block counter advances by one, the
byte counter by the block length, and the phase moves to a CRC phase
exactly when the byte counter reached the declared size of the kind `t`. -/
theorem otaBin_accept (env : Env) (st : DevState) (msg : Msg)
    (binJ t : Json) (bs : List Nat)
    (hbin : getField msg "bin" = some binJ)
    (hb64 : standard_b64decode binJ = some bs)
    (ht : getField msg "t" = some t)
    (hphase : (st.ota = OTA_RECEIVING_BC ∧ t = Json.str "b") ∨
              (st.ota = OTA_RECEIVING_VM ∧ st.ota_type = OTA_BC_AND_VM)) :
    ∃ st2 nxt,
      otaBin env st msg =
        .ok (st2, [Eff.writeSlot (slotBase st t + st.chunk * st.cblock) bs,
                   Eff.sendMsg nxt]) ∧
      st2.cblock = st.cblock + 1 ∧
      st2.csize = st.csize + bs.length ∧
      ((st2.ota = OTA_RECEIVING_BC_CRC ∨ st2.ota = OTA_RECEIVING_VM_CRC) ↔
        declSize st t ≤ st2.csize) := by
  have hph' : st.ota = OTA_RECEIVING_BC ∨ st.ota = OTA_RECEIVING_VM := by
    rcases hphase with ⟨h2, _⟩ | ⟨h2, _⟩
    exacts [Or.inl h2, Or.inr h2]
  obtain ⟨st2, nxt, heq, hko, hcb, hcs, hiff⟩ :=
    otaWrite_shape st t (slotBase st t) (declSize st t) bs hph'
  refine ⟨st2, nxt, ?_, hcb, hcs, hiff⟩
  unfold otaBin
  rcases hphase with ⟨h2, hts⟩ | ⟨h2, hty⟩
  · subst hts
    simp only [req, hbin, hb64, ht, h2]
    simp only [slotBase, declSize] at heq
    simpa using heq
  · simp only [req, hbin, hb64, ht, h2, hty, slotBase, declSize]
    simp only [slotBase, declSize] at heq
    simpa [OTA_RECEIVING_BC, OTA_RECEIVING_VM, OTA_BC_AND_VM] using heq

/-! ## Claims -/

/-- C1 counterexample: in the bytecode-receiving phase an abort (here the
`"BC only ota"` rejection of a block tagged `"v"`) sends exactly the one
`ko` frame, but the resulting phase is the unchanged `OTA_RECEIVING_BC`,
not `OTA_IDLE`: no abort path of `_readloop` resets the phase to Idle,
refuting that part of the claim. -/
theorem c1_counterexample :
    readStep envC stBcPhase msgWrongT =
      .ok (stBcPhase, [Eff.sendMsg (koMsg "BC only ota")]) ∧
    isKo (Eff.sendMsg (koMsg "BC only ota")) = true ∧
    stBcPhase.ota ≠ OTA_IDLE :=
  ⟨rfl, rfl, by decide⟩

/-- C1 (amended): on every FOTA abort path — any read-loop step whose
effects include a `{"ko":1,"reason":…}` frame — the device sends exactly
one message in that step (the `ko` frame), the session continues (the
socket is not closed, the MCU is not reset, and the step completes without
an exception, hence without a reconnect), and the FOTA phase is left at
its prior value rather than returning to Idle. -/
theorem c1_amended_abort_paths (env : Env) (st st2 : DevState) (msg : Msg)
    (effs : List Eff)
    (h : readStep env st msg = .ok (st2, effs))
    (hko : effs.any isKo = true) :
    sendCount effs = 1 ∧ st2.ota = st.ota ∧
    Eff.closeall ∉ effs ∧ Eff.mcuReset ∉ effs := by
  unfold readStep at h
  repeat' split at h
  all_goals first
    | (have hnk := handleCall_no_ko _ _ _ _ _ h;
       rw [hnk] at hko; exact Bool.noConfusion hko)
    | exact otaStart_abort _ _ _ _ _ _ h hko
    | exact otaBin_abort _ _ _ _ _ h hko
    | exact otaCrc_abort _ _ _ _ _ h hko
    | exact otaOkB_abort _ _ _ _ _ h hko
    | (injection h with h1; injection h1 with ha hb; subst ha; subst hb;
       first
         | (exfalso; revert hko; simp; done)
         | (refine ⟨?_, rfl, ?_, ?_⟩ <;> simp [sendCount, isSend]))

/-- C1 witness: the amended theorem applied to the concrete
`"BC only ota"` abort of `c1_counterexample`. -/
theorem c1_amended_witness :
    sendCount [Eff.sendMsg (koMsg "BC only ota")] = 1 ∧
    stBcPhase.ota = stBcPhase.ota ∧
    Eff.closeall ∉ [Eff.sendMsg (koMsg "BC only ota")] ∧
    Eff.mcuReset ∉ [Eff.sendMsg (koMsg "BC only ota")] :=
  c1_amended_abort_paths envC stBcPhase stBcPhase msgWrongT
    [Eff.sendMsg (koMsg "BC only ota")] rfl rfl

/-- C2: an OTA start request (a message with `"chunk"`) whose declared
bytecode slot equals the current one from the FOTA record, or that
declares a non-zero VM image whose VM slot equals the current one, is
aborted immediately with reason `"Bad slots"`: the step performs exactly
the one abort send — in particular no `erase_slot` effect and no
`fota_callback` invocation — and only the declared transfer parameters
are stored. -/
theorem c2_bad_slots (env : Env) (st : DevState) (msg : Msg)
    (rec : FotaRecord) (c vs bs : Int) (bcJ vmJ : Json)
    (hrec : env.record = some rec)
    (hterm : getField msg "terminate" = none)
    (hcmd : getField msg "cmd" = some (Json.str "OTA"))
    (hchunk : getField msg "chunk" = some (Json.num c))
    (hvs : getField msg "vmsize" = some (Json.num vs))
    (hbs : getField msg "bcsize" = some (Json.num bs))
    (hbc : getField msg "bc" = some bcJ)
    (hvm : getField msg "vm" = some vmJ)
    (hbad : (bcJ == rec.r4 || (vs != 0 && vmJ == rec.r1)) = true) :
    readStep env st msg =
      .ok ({ st with chunk := c, vmsize := vs, bcsize := bs,
                     bcslot := bcJ, vmslot := vmJ },
           [Eff.sendMsg (koMsg "Bad slots")]) := by
  have hnc : callGuard env msg = false := by
    simp [callGuard, hcmd]
  unfold readStep otaStart
  simp [hnc, hterm, hcmd, hrec, hasKey, hchunk, req, hvs, hbs, hbc, hvm,
        Json.asInt, hbad]

/-- C2 witness: the refusal at a concrete request declaring bytecode slot
3, the current bytecode slot of the record. -/
theorem c2_bad_slots_witness :
    readStep envC stIdle0 msgBadSlots =
      .ok ({ stIdle0 with chunk := 4, vmsize := 0, bcsize := 6, bcslot := Json.num 3, vmslot := Json.num 9 },
           [Eff.sendMsg (koMsg "Bad slots")]) :=
  c2_bad_slots envC stIdle0 msgBadSlots recC 4 0 6 (Json.num 3) (Json.num 9)
    rfl rfl rfl rfl rfl rfl rfl rfl (by decide)

/-- C3: every binary block accepted in a receiving phase is written by
`write_slot` at address exactly `slotBase(t) + chunk * k`, where `k` is
the current block counter (counting accepted blocks from 0), and the
block counter advances by exactly one. -/
theorem c3_write_address (env : Env) (st : DevState) (msg : Msg)
    (rec : FotaRecord) (binJ t : Json) (bs : List Nat)
    (hterm : getField msg "terminate" = none)
    (hcmd : getField msg "cmd" = some (Json.str "OTA"))
    (hrec : env.record = some rec)
    (hnochunk : getField msg "chunk" = none)
    (hbin : getField msg "bin" = some binJ)
    (hb64 : standard_b64decode binJ = some bs)
    (ht : getField msg "t" = some t)
    (hphase : (st.ota = OTA_RECEIVING_BC ∧ t = Json.str "b") ∨
              (st.ota = OTA_RECEIVING_VM ∧ st.ota_type = OTA_BC_AND_VM)) :
    ∃ st2 nxt,
      readStep env st msg =
        .ok (st2, [Eff.writeSlot (slotBase st t + st.chunk * st.cblock) bs,
                   Eff.sendMsg nxt]) ∧
      st2.cblock = st.cblock + 1 := by
  have hph' : st.ota = OTA_RECEIVING_BC ∨ st.ota = OTA_RECEIVING_VM := by
    rcases hphase with ⟨h2, _⟩ | ⟨h2, _⟩
    exacts [Or.inl h2, Or.inr h2]
  have hred := readStep_otaBin env st msg rec hterm hcmd hrec hnochunk
    (by simp [hbin]) hph'
  obtain ⟨st2, nxt, heq, hcb, _, _⟩ :=
    otaBin_accept env st msg binJ t bs hbin hb64 ht hphase
  exact ⟨st2, nxt, by rw [hred, heq], hcb⟩

/-- C3 witness: block 0 of the bytecode image of `stBcPhase` is written
at `4096 + 4 * 0` and the counter advances to 1. -/
theorem c3_write_address_witness :
    ∃ st2 nxt,
      readStep envC stBcPhase msgBin4 =
        .ok (st2, [Eff.writeSlot (slotBase stBcPhase (Json.str "b") +
                     stBcPhase.chunk * stBcPhase.cblock) [1, 2, 3, 4],
                   Eff.sendMsg nxt]) ∧
      st2.cblock = stBcPhase.cblock + 1 :=
  c3_write_address envC stBcPhase msgBin4 recC (Json.str "AQIDBA==")
    (Json.str "b") [1, 2, 3, 4] rfl rfl rfl rfl rfl rfl rfl
    (Or.inl ⟨rfl, rfl⟩)

/-- C4 counterexample: in the VM-receiving phase (`stVmPhase`), a block
whose tag `"b"` does not match the phase image kind is not rejected:
the step aborts nothing (no `ko` frame) and instead writes the block into
the bytecode slot region (address `4096 + 4 * 1 = 4100`), refuting the
claim that every receiving phase verifies the tag. -/
theorem c4_counterexample :
    readStep envC stVmPhase msgBin4 =
      .ok ({ stVmPhase with ota := OTA_RECEIVING_BC_CRC, cblock := 2, csize := 8 }, [Eff.writeSlot 4100 [1, 2, 3, 4], Eff.sendMsg (otaCMsg (Json.str "b"))]) ∧
    List.any [Eff.writeSlot 4100 [1, 2, 3, 4],
              Eff.sendMsg (otaCMsg (Json.str "b"))] isKo = false ∧
    stVmPhase.ota = OTA_RECEIVING_VM ∧ stVmPhase.next_bcaddr = 4096 :=
  ⟨rfl, rfl, rfl, rfl⟩

/-- C4 (amended): the tag check exists only in the bytecode-receiving
phase, where a block with `t ≠ "b"` is aborted with `"BC only ota"`; in
the VM-receiving phase no tag check is performed — any block, including
one tagged `"b"`, is accepted and written to the slot region selected by
its own tag. -/
theorem c4_amended_tag_check (env : Env) (st : DevState) (msg : Msg)
    (rec : FotaRecord) (binJ t : Json) (bs : List Nat)
    (hterm : getField msg "terminate" = none)
    (hcmd : getField msg "cmd" = some (Json.str "OTA"))
    (hrec : env.record = some rec)
    (hnochunk : getField msg "chunk" = none)
    (hbin : getField msg "bin" = some binJ)
    (hb64 : standard_b64decode binJ = some bs)
    (ht : getField msg "t" = some t) :
    (st.ota = OTA_RECEIVING_BC → t ≠ Json.str "b" →
      readStep env st msg = .ok (st, [Eff.sendMsg (koMsg "BC only ota")])) ∧
    (st.ota = OTA_RECEIVING_VM → st.ota_type = OTA_BC_AND_VM →
      ∃ st2 nxt, readStep env st msg =
        .ok (st2, [Eff.writeSlot (slotBase st t + st.chunk * st.cblock) bs,
                   Eff.sendMsg nxt])) := by
  constructor
  · intro h2 hne
    have hred := readStep_otaBin env st msg rec hterm hcmd hrec hnochunk
      (by simp [hbin]) (Or.inl h2)
    rw [hred]
    unfold otaBin
    simp [req, hbin, hb64, ht, h2, hne]
  · intro h2 hty
    have hred := readStep_otaBin env st msg rec hterm hcmd hrec hnochunk
      (by simp [hbin]) (Or.inr h2)
    obtain ⟨st2, nxt, heq, _, _, _⟩ :=
      otaBin_accept env st msg binJ t bs hbin hb64 ht (Or.inr ⟨h2, hty⟩)
    exact ⟨st2, nxt, by rw [hred, heq]⟩

/-- C4 witness: both halves of the amended claim at concrete inputs — the
`"v"`-tagged block rejected in the bytecode phase, and the `"b"`-tagged
block accepted (and written) in the VM phase. -/
theorem c4_amended_witness :
    readStep envC stBcPhase msgWrongT =
      .ok (stBcPhase, [Eff.sendMsg (koMsg "BC only ota")]) ∧
    (∃ st2 nxt, readStep envC stVmPhase msgBin4 =
      .ok (st2, [Eff.writeSlot (slotBase stVmPhase (Json.str "b") +
                   stVmPhase.chunk * stVmPhase.cblock) [1, 2, 3, 4],
                 Eff.sendMsg nxt])) := by
  constructor
  · exact (c4_amended_tag_check envC stBcPhase msgWrongT recC (Json.str "AQI=")
      (Json.str "v") [1, 2] rfl rfl rfl rfl rfl rfl rfl).1 rfl (by decide)
  · exact (c4_amended_tag_check envC stVmPhase msgBin4 recC (Json.str "AQIDBA==")
      (Json.str "b") [1, 2, 3, 4] rfl rfl rfl rfl rfl rfl rfl).2 rfl rfl

/-- C5 counterexample: from `stOvershoot` (one 4-byte block written,
`csize = 4`, declared `bcsize = 6`) a second full 4-byte block is
accepted: the byte counter reaches 8, strictly exceeding the declared
size 6, at the very transition into the CRC phase — refuting both
"never exceeds the declared image size" and "equals the declared image
size at the transition". -/
theorem c5_counterexample :
    readStep envC stOvershoot msgBin4 =
      .ok ({ stOvershoot with ota := OTA_RECEIVING_BC_CRC, cblock := 2, csize := 8 }, [Eff.writeSlot 4100 [1, 2, 3, 4], Eff.sendMsg (otaCMsg (Json.str "b"))]) ∧
    ({ stOvershoot with ota := OTA_RECEIVING_BC_CRC, cblock := 2, csize := 8 } : DevState).ota = OTA_RECEIVING_BC_CRC ∧
    ¬(({ stOvershoot with ota := OTA_RECEIVING_BC_CRC, cblock := 2, csize := 8 } : DevState).csize ≤ stOvershoot.bcsize) :=
  ⟨rfl, rfl, by decide⟩

/-- C5 (amended): within a receiving phase the byte counter is
monotonically non-decreasing — each accepted block adds its length — and
the phase transitions to the corresponding CRC phase exactly when the
counter reaches **or exceeds** the declared image size; the counter may
strictly exceed the declared size when the final block overshoots. -/
theorem c5_amended_csize (env : Env) (st : DevState) (msg : Msg)
    (rec : FotaRecord) (binJ t : Json) (bs : List Nat)
    (hterm : getField msg "terminate" = none)
    (hcmd : getField msg "cmd" = some (Json.str "OTA"))
    (hrec : env.record = some rec)
    (hnochunk : getField msg "chunk" = none)
    (hbin : getField msg "bin" = some binJ)
    (hb64 : standard_b64decode binJ = some bs)
    (ht : getField msg "t" = some t)
    (hphase : (st.ota = OTA_RECEIVING_BC ∧ t = Json.str "b") ∨
              (st.ota = OTA_RECEIVING_VM ∧ st.ota_type = OTA_BC_AND_VM)) :
    ∃ st2 nxt,
      readStep env st msg =
        .ok (st2, [Eff.writeSlot (slotBase st t + st.chunk * st.cblock) bs,
                   Eff.sendMsg nxt]) ∧
      st2.csize = st.csize + bs.length ∧
      st.csize ≤ st2.csize ∧
      ((st2.ota = OTA_RECEIVING_BC_CRC ∨ st2.ota = OTA_RECEIVING_VM_CRC) ↔
        declSize st t ≤ st2.csize) := by
  have hph' : st.ota = OTA_RECEIVING_BC ∨ st.ota = OTA_RECEIVING_VM := by
    rcases hphase with ⟨h2, _⟩ | ⟨h2, _⟩
    exacts [Or.inl h2, Or.inr h2]
  have hred := readStep_otaBin env st msg rec hterm hcmd hrec hnochunk
    (by simp [hbin]) hph'
  obtain ⟨st2, nxt, heq, _, hcs, hiff⟩ :=
    otaBin_accept env st msg binJ t bs hbin hb64 ht hphase
  refine ⟨st2, nxt, by rw [hred, heq], hcs, ?_, hiff⟩
  rw [hcs]
  exact le_add_of_nonneg_right (Int.natCast_nonneg _)

/-- C5 witness: the amended claim at the concrete overshooting block of
`c5_counterexample` (counter 4 → 8, declared size 6, transition taken). -/
theorem c5_amended_witness :
    ∃ st2 nxt,
      readStep envC stOvershoot msgBin4 =
        .ok (st2, [Eff.writeSlot (slotBase stOvershoot (Json.str "b") +
                     stOvershoot.chunk * stOvershoot.cblock) [1, 2, 3, 4],
                   Eff.sendMsg nxt]) ∧
      st2.csize = stOvershoot.csize + ([1, 2, 3, 4] : List Nat).length ∧
      stOvershoot.csize ≤ st2.csize ∧
      ((st2.ota = OTA_RECEIVING_BC_CRC ∨ st2.ota = OTA_RECEIVING_VM_CRC) ↔
        declSize stOvershoot (Json.str "b") ≤ st2.csize) :=
  c5_amended_csize envC stOvershoot msgBin4 recC (Json.str "AQIDBA==")
    (Json.str "b") [1, 2, 3, 4] rfl rfl rfl rfl rfl rfl rfl
    (Or.inl ⟨rfl, rfl⟩)

/-- C6: in standard mode a second `start()` spawns nothing (all three
handles are guarded by `is None` checks), but in `low_res` mode a second
`start()` — for instance the one run by `_reconnect` — spawns the combined
writer+heartbeat role again, because the assignment
`self._whth = thread(self._writeloop_htbm)` has no handle guard. The
device documentation and the guarded pattern of the other three handles
make the unguarded spawn a slip in the code. -/
theorem c6_lowres_respawns :
    (startWorkers false (startWorkers false initWorkers).1).2 = [] ∧
    (startWorkers true (startWorkers true initWorkers).1).2 =
      [Role.writerHtbm] ∧
    (startWorkers true initWorkers).2 = [Role.reader, Role.writerHtbm] := by
  decide

/-- C7: the login envelope uses the wire spelling `"hearbeat"` and never
`"heartbeat"`; its `"ota"` field is true exactly when `get_record`
succeeded; and the `"bc"`, `"vm"`, `"chunk"` fields (record positions 4,
1, 8) are present exactly when position 0 of the record is truthy, with
those values. -/
theorem c7_login_envelope (uid token : Json) (vminfo : VmInfo)
    (hb : Int) (record : Option FotaRecord) :
    getField (loginData uid token vminfo hb record) "hearbeat" =
      some (Json.num hb) ∧
    getField (loginData uid token vminfo hb record) "heartbeat" = none ∧
    getField (loginData uid token vminfo hb record) "ota" =
      some (Json.bool record.isSome) ∧
    (hasKey (loginData uid token vminfo hb record) "bc" =
      match record with
      | some rec => rec.r0.truthy
      | none => false) ∧
    (hasKey (loginData uid token vminfo hb record) "vm" =
      match record with
      | some rec => rec.r0.truthy
      | none => false) ∧
    (hasKey (loginData uid token vminfo hb record) "chunk" =
      match record with
      | some rec => rec.r0.truthy
      | none => false) ∧
    (∀ rec, record = some rec → rec.r0.truthy = true →
      getField (loginData uid token vminfo hb record) "bc" = some rec.r4 ∧
      getField (loginData uid token vminfo hb record) "vm" = some rec.r1 ∧
      getField (loginData uid token vminfo hb record) "chunk" = some rec.r8) := by
  rcases record with _ | rec
  · refine ⟨rfl, rfl, rfl, rfl, rfl, rfl, ?_⟩
    intro rec hr
    exact Option.noConfusion hr
  · by_cases h0 : rec.r0.truthy = true
    · refine ⟨?_, ?_, ?_, ?_, ?_, ?_, ?_⟩ <;>
        simp [loginData, getField, hasKey, h0]
    · have h0f : rec.r0.truthy = false := by
        cases hh : rec.r0.truthy
        · rfl
        · exact absurd hh h0
      refine ⟨?_, ?_, ?_, ?_, ?_, ?_, ?_⟩ <;>
        simp [loginData, getField, hasKey, h0f]

/-- C7 witness: the envelope at a concrete valid-runtime record carries
`"hearbeat"` 60, `"ota"` true and the record slots and chunk size. -/
theorem c7_login_envelope_witness :
    getField (loginData (Json.str "U") (Json.str "T")
      ⟨Json.str "V", Json.str "px"⟩ 60 (some recC)) "hearbeat" =
      some (Json.num 60) ∧
    getField (loginData (Json.str "U") (Json.str "T")
      ⟨Json.str "V", Json.str "px"⟩ 60 (some recC)) "heartbeat" = none ∧
    getField (loginData (Json.str "U") (Json.str "T")
      ⟨Json.str "V", Json.str "px"⟩ 60 (some recC)) "bc" =
      some (Json.num 3) ∧
    getField (loginData (Json.str "U") (Json.str "T")
      ⟨Json.str "V", Json.str "px"⟩ 60 (some recC)) "vm" =
      some (Json.num 2) ∧
    getField (loginData (Json.str "U") (Json.str "T")
      ⟨Json.str "V", Json.str "px"⟩ 60 (some recC)) "chunk" =
      some (Json.num 1024) := by
  have h := c7_login_envelope (Json.str "U") (Json.str "T")
    ⟨Json.str "V", Json.str "px"⟩ 60 (some recC)
  obtain ⟨hb, hn, _, _, _, _, hrec⟩ := h
  obtain ⟨h4, h1, h8⟩ := hrec recC rfl (by decide)
  exact ⟨hb, hn, h4, h1, h8⟩

/-- C8: an inbound `CALL` frame matching a registered handler is
dispatched; when the handler raises and `ret` is truthy the device sends
`{"cmd":"RETN","id":…,"error":str(exn)}`, when it succeeds and `ret` is
truthy it sends `{"cmd":"RETN","id":…,"res":result}`, and when `ret` is
falsy or absent nothing is sent; the `RETN` id is always the `CALL` id. -/
theorem c8_rpc_dispatch (env : Env) (st : DevState) (msg : Msg)
    (mname : String) (h : Handler) (idv : Json) (xs : List Json)
    (retJ : Option Json)
    (hcmd : getField msg "cmd" = some (Json.str "CALL"))
    (hmethod : getField msg "method" = some (Json.str mname))
    (hh : rpcLookup env mname = some h)
    (hid : getField msg "id" = some idv)
    (hargs : getField msg "args" = some (jarr xs) ∨
             (getField msg "args" = none ∧ xs = []))
    (hret : getField msg "ret" = retJ) :
    readStep env st msg = .ok (st,
      match h xs, (retJ.map Json.truthy).getD false with
      | .error e, true => [Eff.sendMsg (retnErr idv e)]
      | .error _, false => []
      | .ok res, true => [Eff.sendMsg (retnRes idv res)]
      | .ok _, false => []) := by
  have hguard : callGuard env msg = true := by
    simp [callGuard, hasKey, hcmd, hmethod, hh, hid]
  unfold readStep
  rw [if_pos hguard]
  unfold handleCall
  have hunpack : unpackArgs (jarr xs) = .ok xs := by
    simp [unpackArgs, jarr, JsonArr.toList_ofList]
  rcases hargs with hargs | ⟨hargs, hxs⟩
  · rcases hret with rfl
    simp only [hmethod, hh, req, hid, hargs, hunpack]
    rcases hres : h xs with e | res <;>
      rcases hr : getField msg "ret" with _ | rv <;>
        simp [hres, hr, Option.getD] <;>
          by_cases htv : rv.truthy = true <;> simp [htv]
  · subst hxs
    rcases hret with rfl
    simp only [hmethod, hh, req, hid, hargs, hunpack]
    rcases hres : h [] with e | res <;>
      rcases hr : getField msg "ret" with _ | rv <;>
        simp [hres, hr, Option.getD] <;>
          by_cases htv : rv.truthy = true <;> simp [htv]

/-- C8 witness: `echo("hi")` with `ret` true produces exactly
`{"cmd":"RETN","id":"7","res":"hi"}`. -/
theorem c8_rpc_dispatch_witness :
    readStep envC stIdle0 msgEcho =
      .ok (stIdle0, [Eff.sendMsg (retnRes (Json.str "7") (Json.str "hi"))]) := by
  have h := c8_rpc_dispatch envC stIdle0 msgEcho "echo"
    (fun xs => .ok (xs.headD Json.null)) (Json.str "7") [Json.str "hi"]
    (some (Json.bool true)) rfl rfl rfl rfl (Or.inl rfl) rfl
  simpa using h

/-- C9: the outbound queue is allocated with capacity exactly 2 and
`send` passes a 1000 ms deadline; a put on a non-full queue appends at
the tail (prior messages keep their order), while a put that finds the
queue still full after the deadline drops the message (the queue is
unchanged) and raises to the caller. -/
theorem c9_queue_capacity (q : WQueue) (m : Json) :
    initWQueue.cap = 2 ∧
    SEND_TIMEOUT_MS = 1000 ∧
    (q.items.length < q.cap →
      devSend q m = .ok { q with items := q.items ++ [m] }) ∧
    (¬q.items.length < q.cap → devSend q m = .error "QueueFull") := by
  refine ⟨rfl, rfl, ?_, ?_⟩
  · intro hlt
    simp [devSend, wqPut, hlt]
  · intro hge
    simp [devSend, wqPut, hge]

/-- C9 witness: a queue of capacity 2 holding one message accepts a
second at the tail; holding two, a further put fails and changes
nothing. -/
theorem c9_queue_capacity_witness :
    devSend ⟨2, [Json.null]⟩ (Json.num 5) =
      .ok ⟨2, [Json.null, Json.num 5]⟩ ∧
    devSend ⟨2, [Json.null, Json.num 5]⟩ (Json.num 6) =
      .error "QueueFull" :=
  ⟨(c9_queue_capacity ⟨2, [Json.null]⟩ (Json.num 5)).2.2.1 (by decide),
   (c9_queue_capacity ⟨2, [Json.null, Json.num 5]⟩ (Json.num 6)).2.2.2
     (by decide)⟩

/-- C10: `_send` never raises — its body is wrapped in a catch-all that
only logs, so whatever the serializer or the socket do the message is at
worst lost and `_send` returns normally (`sendRaw` is the caught form of
the fallible body `sendAttempt`); consequently the writer loop and the
combined writer+heartbeat loop reconnect only when the queue wait itself
fails, never because of a socket write failure. -/
theorem c10_send_never_raises (serialize : Json → Except String String)
    (write : String → Except String Unit) (msg : Json) (e : String)
    (g : GetRes) :
    sendRaw serialize write msg = (sendAttempt serialize write msg).1 ∧
    writeloopStep serialize write (.ok msg) =
      (sendRaw serialize write msg, false) ∧
    writeloopStep serialize write (.error e) = ([], true) ∧
    ((writeloopHtbmStep serialize write g).2 = (g == GetRes.failed)) := by
  refine ⟨rfl, rfl, rfl, ?_⟩
  cases g <;> rfl

end Zadm
